import Mathlib

/-!
Shallow embedding of the MaskTerial repository (files
`src/maskterial/structures/FlakeClass.py` and `src/maskterial/utils/evaluator.py`)
together with theorems settling the frozen claims about its specification.

Machine reals are modelled exactly by rationals; a Python float that can be NaN is
modelled by the inductive type `PyF`.  Python exceptions are modelled by
`Except PyError`; an operation that cannot raise is a plain function.
-/

set_option autoImplicit false

namespace MaskTerial

/-! ### Python numeric primitives -/

/-- Python rounding of a real number to the nearest integer with ties going to the
even integer (banker's rounding), as used by the built-in `round` and `np.round`. -/
def roundHalfEven (x : ℚ) : ℤ :=
  if x - ⌊x⌋ < 1 / 2 then ⌊x⌋
  else if x - ⌊x⌋ > 1 / 2 then ⌊x⌋ + 1
  else if ⌊x⌋ % 2 = 0 then ⌊x⌋ else ⌊x⌋ + 1

/-- Python `round(x, 1)`. -/
def pyRound1 (x : ℚ) : ℚ := (roundHalfEven (10 * x) : ℚ) / 10

/-- Python `round(x, 2)`. -/
def pyRound2 (x : ℚ) : ℚ := (roundHalfEven (100 * x) : ℚ) / 100

/-- Python `int()` applied to a real number: truncation toward zero. -/
def pyInt (q : ℚ) : ℤ := if 0 ≤ q then ⌊q⌋ else -⌊-q⌋

/-! ### Flake container (`src/maskterial/structures/FlakeClass.py`) -/

/-- Line 43 of `FlakeClass.py`, the derived attribute set by `Flake.__init__`:
`self.aspect_ratio = round(max_sidelength / (min_sidelength + 1e-5), 1)`.
Per the constructor signature both sidelengths are integers (pixel lengths of a
rotated bounding box). -/
def aspect_ratio (max_sidelength min_sidelength : ℤ) : ℚ :=
  pyRound1 ((max_sidelength : ℚ) / ((min_sidelength : ℚ) + 1 / 100000))

/-- Indices at which a boolean vector is `true`, in increasing order:
`np.where(v)[0]`. -/
def whereTrue (v : List Bool) : List ℕ :=
  (List.range v.length).filter (fun i => v.getD i false)

/-- Per-row occupancy of a mask, `rows = np.any(self.mask, axis=1)`
(line 74 of `FlakeClass.py`): entry `i` says whether row `i` has a true pixel.
A mask is a list of rows of booleans. -/
def rowsAny (mask : List (List Bool)) : List Bool :=
  mask.map (fun r => r.any id)

/-- Per-column occupancy of a mask, `cols = np.any(self.mask, axis=0)`
(line 75 of `FlakeClass.py`): entry `j` says whether column `j` has a true pixel.
A numpy 2-D array is rectangular, so the width is the length of the first row. -/
def colsAny (mask : List (List Bool)) : List Bool :=
  (List.range (mask.headD []).length).map (fun j => mask.any (fun r => r.getD j false))

/-- Bounding-box derivation of `Flake.to_dict(return_bbox=True)`
(lines 72-83 of `FlakeClass.py`):

    rows = np.any(self.mask, axis=1)
    cols = np.any(self.mask, axis=0)
    rmin, rmax = np.where(rows)[0][[0, -1]]
    cmin, cmax = np.where(cols)[0][[0, -1]]
    temp_dict["bbox"] = [int(cmin), int(rmin), int(cmax - cmin), int(rmax - rmin)]

Fancy-indexing an empty index array with `[[0, -1]]` raises `IndexError`; this is
modelled by `none`. -/
def deriveBBox (mask : List (List Bool)) : Option (List ℤ) :=
  match (whereTrue (rowsAny mask)).head?, (whereTrue (rowsAny mask)).getLast?,
        (whereTrue (colsAny mask)).head?, (whereTrue (colsAny mask)).getLast? with
  | some rmin, some rmax, some cmin, some cmax =>
      some [(cmin : ℤ), (rmin : ℤ), (cmax : ℤ) - (cmin : ℤ), (rmax : ℤ) - (rmin : ℤ)]
  | _, _, _, _ => none

/-- Row `i` of the mask contains a true pixel. -/
def occupiedRow (mask : List (List Bool)) (i : ℕ) : Bool :=
  (mask.getD i []).any id

/-- Column `j` of the mask contains a true pixel. -/
def occupiedCol (mask : List (List Bool)) (j : ℕ) : Bool :=
  mask.any (fun r => r.getD j false)

/-! ### Evaluation parameters (`FlakeParams`, `src/maskterial/utils/evaluator.py` lines 814-870) -/

/-- A Python exception value, as far as the embedded code distinguishes them. -/
inductive PyError
  | attributeError (name : String)
  | assertionError (msg : String)
  | exception (msg : String)
deriving DecidableEq, Repr

/-- Model of `np.linspace(start, stop, num, endpoint=True)` for `num ≥ 2`:
`start + i * (stop - start) / (num - 1)` for `i = 0, ..., num - 1`. -/
def linspace (start stop : ℚ) (num : ℕ) : List ℚ :=
  (List.range num).map (fun i => start + i * ((stop - start) / ((num : ℚ) - 1)))

/-- Fixed pixel-area to nm²-area conversion, line 837 of `evaluator.py`:
`conversion_factor = 1 / (0.3844**2)`.  The decimal literal is exact here, and
every float operation below stays far from integer boundaries, so rational
arithmetic truncates to the same integers float64 arithmetic does. -/
def conversion_factor : ℚ := 1 / ((0.3844 : ℚ) ^ 2)

/-- Parameter record filled in by `FlakeParams.setDetParams` and
`FlakeParams.__init__` (lines 819-870 of `evaluator.py`). -/
structure FlakeParams where
  imgIds : List ℕ
  catIds : List ℕ
  iouThrs : List ℚ
  recThrs : List ℚ
  maxDets : List ℕ
  areaRng : List (ℚ × ℚ)
  areaRngLbl : List String
  useCats : ℕ
  iouType : String
deriving DecidableEq, Repr

/-- Body of `FlakeParams.setDetParams` (lines 819-859 of `evaluator.py`).  The
`areaRng` bounds mix Python ints (`int(100 * conversion_factor)` and friends) and
floats (`1e10`); both are represented as rationals. -/
def setDetParams (iouType : String) : FlakeParams :=
  { imgIds := []
    catIds := []
    iouThrs := linspace 0.5 0.95 ((roundHalfEven ((0.95 - 0.5) / 0.05)).toNat + 1)
    recThrs := linspace 0.0 1.00 ((roundHalfEven ((1.00 - 0.0) / 0.01)).toNat + 1)
    maxDets := [1, 10, 100]
    areaRng := [(0, 1e10),
                (0, (pyInt (100 * conversion_factor) : ℚ)),
                ((pyInt (100 * conversion_factor) : ℚ), (pyInt (200 * conversion_factor) : ℚ)),
                ((pyInt (200 * conversion_factor) : ℚ), (pyInt (400 * conversion_factor) : ℚ)),
                ((pyInt (400 * conversion_factor) : ℚ), 1e10)]
    areaRngLbl := ["all", "0-100", "100-200", "200-400", "400-inf"]
    useCats := 1
    iouType := iouType }

/-- Body of `FlakeParams.__init__` (lines 861-870 of `evaluator.py`):

    if iouType == "segm" or iouType == "bbox": self.setDetParams()
    elif iouType == "keypoints": self.setKpParams()
    else: raise Exception("iouType not supported")

No method named `setKpParams` is defined anywhere on `FlakeParams` (the class body
declares only `setDetParams` and `__init__`, and the class has no base other than
`object`), so the `keypoints` branch raises `AttributeError` at the call. -/
def FlakeParams.init (iouType : String) : Except PyError FlakeParams :=
  if iouType = "segm" ∨ iouType = "bbox" then
    .ok (setDetParams iouType)
  else if iouType = "keypoints" then
    .error (.attributeError "setKpParams")
  else
    .error (.exception "iouType not supported")

/-- Construction of the evaluation engine, `FlakeCOCOeval.__init__` (lines 696-719
of `evaluator.py`): the only step that can raise is `self.params =
FlakeParams(iouType=iouType)`; everything else assigns empty containers. -/
def FlakeCOCOeval.init (iouType : String) : Except PyError FlakeParams :=
  FlakeParams.init iouType

/-- The per-task assertion of `FlakeCOCOEvaluator._eval_predictions`, line 267 of
`evaluator.py`: `assert task in {"bbox", "segm", "keypoints"}`. -/
def taskIsKnown (task : String) : Bool :=
  task == "bbox" || task == "segm" || task == "keypoints"

/-! ### Metric derivation (`FlakeCOCOeval.summarize` and
`FlakeCOCOEvaluator._derive_coco_results`) -/

/-- A Python float that is either NaN or an exact value. -/
inductive PyF
  | nan
  | val (q : ℚ)
deriving DecidableEq, Repr

/-- Multiplication of a Python float by a constant; NaN propagates. -/
def PyF.mulConst (x : PyF) (c : ℚ) : PyF :=
  match x with
  | .nan => .nan
  | .val q => .val (q * c)

/-- Python `round(x, 2)` on a float; `round(nan, 2)` is NaN. -/
def PyF.round2 : PyF → PyF
  | .nan => .nan
  | .val q => .val (pyRound2 q)

/-- Core of `FlakeCOCOeval.summarize._summarize` (lines 755-758 of `evaluator.py`),
applied to the flattened slice `s` of the accumulated precision or recall tensor
selected by one IoU-threshold / area-bucket / maxDets combination:

    if len(s[s > -1]) == 0: mean_s = -1
    else: mean_s = np.mean(s[s > -1])
-/
def summarizeMean (s : List ℚ) : ℚ :=
  let valid := s.filter (fun x => -1 < x)
  if valid.length = 0 then -1 else valid.sum / valid.length

/-- One entry of the top-level results table built by
`FlakeCOCOEvaluator._derive_coco_results` (lines 386-394 of `evaluator.py`) from
the corresponding `coco_eval.stats` entry:

    round(float(coco_eval.stats[idx] * 100 if coco_eval.stats[idx] >= 0 else "nan"), 2)
-/
def deriveStatEntry (stat : ℚ) : PyF :=
  PyF.round2 (if 0 ≤ stat then .val (stat * 100) else .nan)

/-- One per-class entry of the results table built by
`FlakeCOCOEvaluator._derive_coco_results` (lines 434-445 of `evaluator.py`) from
the flattened tensor slice `sub_metric` for one mode / IoU threshold / area bucket
/ class:

    sub_metric = sub_metric[sub_metric > -1]
    final_metric = np.mean(sub_metric) if sub_metric.size else float("nan")
    results.update({result_key: round(float(final_metric * 100), 2)})
-/
def deriveClassEntry (sub_metric : List ℚ) : PyF :=
  let sub := sub_metric.filter (fun x => -1 < x)
  let final_metric : PyF := if sub.length ≠ 0 then .val (sub.sum / sub.length) else .nan
  PyF.round2 (final_metric.mulConst 100)

/-! ### `FlakeCOCOEvaluator.evaluate` (lines 179-210 of `evaluator.py`) -/

/-- One per-image prediction record accumulated by `FlakeCOCOEvaluator.process`;
only the fields `evaluate` branches on are tracked. -/
structure Prediction where
  imageId : ℕ
  hasInstances : Bool
  hasProposals : Bool
deriving DecidableEq, Repr

/-- Observable outcome of one call to `FlakeCOCOEvaluator.evaluate`: the returned
mapping and whether the `"[COCOEvaluator] Did not receive valid predictions."`
warning was logged. -/
structure EvaluateOutcome (ρ : Type) where
  result : List (String × ρ)
  warnedNoPredictions : Bool
deriving DecidableEq, Repr

/-- `FlakeCOCOEvaluator.evaluate` (lines 179-210 of `evaluator.py`):

    if self._distributed:
        comm.synchronize()
        predictions = comm.gather(self._predictions, dst=0)
        predictions = list(itertools.chain(*predictions))
        if not comm.is_main_process(): return {}
    else:
        predictions = self._predictions
    if len(predictions) == 0:
        self._logger.warning("[COCOEvaluator] Did not receive valid predictions.")
        return {}
    ...
    return copy.deepcopy(self._results)

`comm.gather` returns the list of all ranks' prediction lists on the destination
rank and the empty list on every other rank, whence `gatheredPreds.flatten` resp.
`[]`.  Everything past the emptiness check (saving `instances_predictions.pth`,
`_eval_box_proposals`, `_eval_predictions`) is abstracted into `evalRest`, which
may itself raise. -/
def FlakeCOCOEvaluator.evaluate {ρ : Type}
    (distributed isMainProcess : Bool)
    (gatheredPreds : List (List Prediction))
    (ownPreds : List Prediction)
    (evalRest : List Prediction → Except PyError (List (String × ρ))) :
    Except PyError (EvaluateOutcome ρ) :=
  let predictions :=
    if distributed then (if isMainProcess then gatheredPreds.flatten else []) else ownPreds
  if distributed ∧ ¬ isMainProcess then
    .ok { result := [], warnedNoPredictions := false }
  else if predictions.length = 0 then
    .ok { result := [], warnedNoPredictions := true }
  else
    (evalRest predictions).map (fun r => { result := r, warnedNoPredictions := false })

/-! ### `FlakeCOCOEvaluator._eval_predictions` (lines 224-285 of `evaluator.py`) -/

/-- A COCO-format result record, as far as `_eval_predictions` inspects it. -/
structure CocoResult where
  imageId : ℕ
  categoryId : ℕ
  score : ℚ
deriving DecidableEq, Repr

/-- Whether metric computation is attempted, `FlakeCOCOEvaluator.__init__` line
150 of `evaluator.py`: `self._do_evaluation = "annotations" in self._coco_api.dataset`. -/
def doEvaluationFlag (datasetKeys : List String) : Bool :=
  datasetKeys.contains "annotations"

/-- Observable outcome of one call to `FlakeCOCOEvaluator._eval_predictions`:
whether `coco_instances_results.json` was written, whether the
`"Annotations are not available for evaluation."` message was logged, whether the
per-task FlakeCOCO evaluation loop was entered, and the entries added to
`self._results`. -/
structure EvalPredictionsOutcome (ρ : Type) where
  wroteResultsJson : Bool
  loggedNoAnnotations : Bool
  invokedCocoEval : Bool
  results : List (String × ρ)
deriving DecidableEq, Repr

/-- `FlakeCOCOEvaluator._eval_predictions` (lines 224-285 of `evaluator.py`).
Steps, in source order: remap category ids when the metadata carries
`thing_dataset_id_to_contiguous_id` (asserting every predicted id is `<
num_classes`); write `coco_instances_results.json` when an output directory is
set; if `self._do_evaluation` is false, log
`"Annotations are not available for evaluation."` and return; otherwise run the
FlakeCOCO evaluation for each task (asserting the task name is known).  The
per-task metric derivation is abstracted into `deriveTask`; iterating `tasks` in
the given rather than sorted order only permutes the keys of `results`. -/
def FlakeCOCOEvaluator.evalPredictions {ρ : Type}
    (idMapping : Option (ℕ × (ℕ → ℕ)))
    (hasOutputDir doEvaluation : Bool)
    (tasks : List String) (cocoResults : List CocoResult)
    (deriveTask : String → List CocoResult → ρ) :
    Except PyError (EvalPredictionsOutcome ρ) := do
  let cocoResults ←
    match idMapping with
    | none => pure cocoResults
    | some (numClasses, reverseIdMapping) =>
        if cocoResults.all (fun r => r.categoryId < numClasses) then
          pure (cocoResults.map (fun r => { r with categoryId := reverseIdMapping r.categoryId }))
        else
          throw (.assertionError "A prediction has a class id outside the dataset classes.")
  if ¬ doEvaluation then
    return { wroteResultsJson := hasOutputDir, loggedNoAnnotations := true,
             invokedCocoEval := false, results := [] }
  let mut results : List (String × ρ) := []
  for task in tasks do
    if ¬ taskIsKnown task then
      throw (.assertionError "Got unknown task!")
    results := results ++ [(task, deriveTask task cocoResults)]
  return { wroteResultsJson := hasOutputDir, loggedNoAnnotations := false,
           invokedCocoEval := !tasks.isEmpty, results := results }

/-! ### Timing loop of `evaluate_on_dataset` (lines 873-973 of `evaluator.py`)

Wall-clock time is embedded by explicit per-iteration durations `dataT idx`,
`computeT idx`, `evalT idx` for the three timed phases of iteration `idx`; the
model assumes `time.perf_counter()` advances exactly by those durations, so any
two consecutive reads of the clock with no timed phase in between are equal. -/

/-- Timing state of the loop.  `now` is the current `time.perf_counter()` value;
`startTime`, `totalDataTime`, `totalComputeTime` and `totalEvalTime` are the
variables of the same names (with `start_time` reset at `idx == num_warmup`).
`start_data_time` always equals `now` at the top of an iteration and is left
implicit. -/
structure LoopState where
  now : ℚ
  startTime : ℚ
  totalDataTime : ℚ
  totalComputeTime : ℚ
  totalEvalTime : ℚ
deriving DecidableEq, Repr

/-- `num_warmup = min(5, total - 1)` (line 906 of `evaluator.py`), computed in ℤ
because Python's `total - 1` is `-1` for an empty loader. -/
def numWarmup (total : ℕ) : ℤ :=
  min 5 ((total : ℤ) - 1)

/-- The state updates performed by iteration `idx` of the loop body (lines
913-932 of `evaluator.py`): accumulate the data-loading time, reset the counters
when `idx == num_warmup`, then accumulate compute and eval time. -/
def stepState (dataT computeT evalT : ℕ → ℚ) (nw : ℤ) (idx : ℕ) (s : LoopState) : LoopState :=
  let afterData : LoopState :=
    { s with now := s.now + dataT idx, totalDataTime := s.totalDataTime + dataT idx }
  let afterWarmup : LoopState :=
    if (idx : ℤ) = nw then
      { afterData with startTime := afterData.now, totalDataTime := 0,
                       totalComputeTime := 0, totalEvalTime := 0 }
    else afterData
  let afterCompute : LoopState :=
    { afterWarmup with now := afterWarmup.now + computeT idx,
                       totalComputeTime := afterWarmup.totalComputeTime + computeT idx }
  { afterCompute with now := afterCompute.now + evalT idx,
                      totalEvalTime := afterCompute.totalEvalTime + evalT idx }

/-- `iters_after_start = idx + 1 - num_warmup * int(idx >= num_warmup)`
(line 929 of `evaluator.py`). -/
def itersAfterStart (nw : ℤ) (idx : ℕ) : ℤ :=
  (idx : ℤ) + 1 - nw * (if nw ≤ (idx : ℤ) then 1 else 0)

/-- `eta = datetime.timedelta(seconds=int(total_seconds_per_iter * (total - idx - 1)))`
(lines 935-937 of `evaluator.py`), as a number of whole seconds, where
`total_seconds_per_iter = (time.perf_counter() - start_time) / iters_after_start`
is read from the post-iteration state `s`. -/
def etaSeconds (total : ℕ) (nw : ℤ) (idx : ℕ) (s : LoopState) : ℤ :=
  pyInt ((s.now - s.startTime) / (itersAfterStart nw idx : ℚ) * ((total : ℚ) - (idx : ℚ) - 1))

/-- The abort condition checked at the end of iteration `idx` (lines 934-958 of
`evaluator.py`): the ETA is only computed under the gate
`idx >= num_warmup * 2 or compute_seconds_per_iter > 5`, and the loop returns
`None` when additionally `max_time_minutes` is set and
`eta.total_seconds() > 60 * max_time_minutes`. -/
def etaCheckFires (total : ℕ) (nw : ℤ) (maxTimeMinutes : Option ℚ) (idx : ℕ)
    (s : LoopState) : Bool :=
  (decide (nw * 2 ≤ (idx : ℤ)) ||
    decide ((5 : ℚ) < s.totalComputeTime / (itersAfterStart nw idx : ℚ))) &&
  (match maxTimeMinutes with
   | none => false
   | some m => decide (60 * m < (etaSeconds total nw idx s : ℤ)))

/-- Result of the timing loop: `aborted n` is the early `return None` after fully
processing `n` batches; `completed` is reaching the end of the loader, after
which `evaluate_on_dataset` returns `evaluator.evaluate()`. -/
inductive LoopResult
  | aborted (processed : ℕ)
  | completed (finalState : LoopState)
deriving DecidableEq, Repr

/-- The loop of `evaluate_on_dataset` from iteration `idx` on, with `fuel`
iterations left in the loader: run the body, return `None` (`aborted`) when the
ETA check fires, else continue. -/
def runLoopFrom (total : ℕ) (nw : ℤ) (dataT computeT evalT : ℕ → ℚ)
    (maxTimeMinutes : Option ℚ) : ℕ → ℕ → LoopState → LoopResult
  | 0, _, s => .completed s
  | fuel + 1, idx, s =>
      let s2 := stepState dataT computeT evalT nw idx s
      if etaCheckFires total nw maxTimeMinutes idx s2 then .aborted (idx + 1)
      else runLoopFrom total nw dataT computeT evalT maxTimeMinutes fuel (idx + 1) s2

/-- Initial timing state: the clock starts at 0 and `start_time = start_data_time
= time.perf_counter()` (lines 907-912 of `evaluator.py`). -/
def initState : LoopState :=
  { now := 0, startTime := 0, totalDataTime := 0, totalComputeTime := 0, totalEvalTime := 0 }

/-- The whole timing loop of `evaluate_on_dataset` over a loader of `total`
batches. -/
def evaluateOnDatasetLoop (total : ℕ) (dataT computeT evalT : ℕ → ℚ)
    (maxTimeMinutes : Option ℚ) : LoopResult :=
  runLoopFrom total (numWarmup total) dataT computeT evalT maxTimeMinutes total 0 initState

/-- The timing state at the top of iteration `idx` (equivalently, after the first
`idx` iterations have run). -/
def stateAt (dataT computeT evalT : ℕ → ℚ) (nw : ℤ) : ℕ → LoopState
  | 0 => initState
  | idx + 1 => stepState dataT computeT evalT nw idx (stateAt dataT computeT evalT nw idx)

/-! ## Helper lemmas -/

theorem roundHalfEven_eq_ten {y : ℚ} (h1 : 19 / 2 < y) (h2 : y < 10) :
    roundHalfEven y = 10 := by
  have hf : ⌊y⌋ = 9 := by
    rw [Int.floor_eq_iff]
    constructor
    · push_cast; linarith
    · push_cast; linarith
  rw [roundHalfEven, hf]
  rw [if_neg (by push_cast; linarith), if_pos (by push_cast; linarith)]
  norm_num

theorem le_roundHalfEven_of_le {y : ℚ} (h : 19 / 2 ≤ y) : 10 ≤ roundHalfEven y := by
  by_cases h2 : y < 10
  · have hf : ⌊y⌋ = 9 := by
      rw [Int.floor_eq_iff]
      constructor
      · push_cast; linarith
      · push_cast; linarith
    rw [roundHalfEven, hf]
    rw [if_neg (by push_cast; linarith)]
    split
    · omega
    · split <;> omega
  · have hfl : (10 : ℤ) ≤ ⌊y⌋ := by
      rw [Int.le_floor]; push_cast; linarith
    rw [roundHalfEven]
    split
    · omega
    · split
      · omega
      · split <;> omega

theorem floor_lt_of_le_pyInt {x : ℚ} (h : 1 ≤ pyInt x) : 0 < x := by
  rw [pyInt] at h
  split at h
  · have h1 : (1 : ℚ) ≤ x := by
      have := Int.le_floor.mp h
      push_cast at this; linarith
    linarith
  · exfalso
    rename_i hx
    push_neg at hx
    have h0 : (0 : ℤ) ≤ ⌊-x⌋ := by
      rw [Int.le_floor]; push_cast; linarith
    omega

/-! ## Claim theorems -/

/-- Claim C8: for every Flake constructed with `max_sidelength = min_sidelength`
positive, the derived `aspect_ratio = round(max_sidelength / (min_sidelength +
1e-5), 1)` equals 1.0. -/
theorem C8_equal_sides_aspect_ratio_one (s : ℤ) (h : 1 ≤ s) :
    aspect_ratio s s = 1 := by
  rw [aspect_ratio, pyRound1]
  have hq : (1 : ℚ) ≤ (s : ℚ) := by exact_mod_cast h
  have hd : (0 : ℚ) < (s : ℚ) + 1 / 100000 := by linarith
  have h1 : 19 / 2 < 10 * ((s : ℚ) / ((s : ℚ) + 1 / 100000)) := by
    rw [← mul_div_assoc, lt_div_iff₀ hd]; linarith
  have h2 : 10 * ((s : ℚ) / ((s : ℚ) + 1 / 100000)) < 10 := by
    rw [← mul_div_assoc, div_lt_iff₀ hd]; linarith
  rw [roundHalfEven_eq_ten h1 h2]
  norm_num

/-- Witness for C8 at `max_sidelength = min_sidelength = 7`. -/
theorem C8_equal_sides_aspect_ratio_one_witness :
    (1 : ℤ) ≤ 7 ∧ aspect_ratio 7 7 = 1 :=
  ⟨by decide, C8_equal_sides_aspect_ratio_one 7 (by decide)⟩

/-- Claim C9: for every Flake constructed with positive `min_sidelength` and
`max_sidelength ≥ min_sidelength` (sidelengths are integers per the constructor
signature), the derived `aspect_ratio` attribute is at least 1. -/
theorem C9_aspect_ratio_ge_one (max_sidelength min_sidelength : ℤ)
    (hmin : 1 ≤ min_sidelength) (hle : min_sidelength ≤ max_sidelength) :
    1 ≤ aspect_ratio max_sidelength min_sidelength := by
  rw [aspect_ratio, pyRound1]
  have hq : (1 : ℚ) ≤ (min_sidelength : ℚ) := by exact_mod_cast hmin
  have hqle : (min_sidelength : ℚ) ≤ (max_sidelength : ℚ) := by exact_mod_cast hle
  have hd : (0 : ℚ) < (min_sidelength : ℚ) + 1 / 100000 := by linarith
  have h1 : 19 / 2 ≤ 10 * ((max_sidelength : ℚ) / ((min_sidelength : ℚ) + 1 / 100000)) := by
    rw [← mul_div_assoc, le_div_iff₀ hd]; linarith
  have h10 := le_roundHalfEven_of_le h1
  have h10q : (10 : ℚ) ≤ (roundHalfEven (10 * ((max_sidelength : ℚ) /
      ((min_sidelength : ℚ) + 1 / 100000))) : ℚ) := by exact_mod_cast h10
  linarith

/-- Witness for C9 at `max_sidelength = 5`, `min_sidelength = 3`. -/
theorem C9_aspect_ratio_ge_one_witness :
    (1 : ℤ) ≤ 3 ∧ (3 : ℤ) ≤ 5 ∧ 1 ≤ aspect_ratio 5 3 :=
  ⟨by decide, by decide, C9_aspect_ratio_ge_one 5 3 (by decide) (by decide)⟩

/-- Claim C6: the evaluation parameters define exactly 5 area buckets labelled
`all`, `0-100`, `100-200`, `200-400`, `400-inf`; their pixel-area boundaries come
from the physical nm² boundaries 100, 200, 400 by multiplying with the constant
`1 / 0.3844²` and truncating to integer (giving 676, 1353, 2707), and the `all`
and `400-inf` buckets extend to `1e10`. -/
theorem C6_area_buckets :
    (setDetParams "segm").areaRngLbl = ["all", "0-100", "100-200", "200-400", "400-inf"] ∧
    (setDetParams "segm").areaRngLbl.length = 5 ∧
    (setDetParams "segm").areaRng =
      [(0, 10 ^ 10), (0, 676), (676, 1353), (1353, 2707), (2707, 10 ^ 10)] ∧
    pyInt (100 * conversion_factor) = 676 ∧
    pyInt (200 * conversion_factor) = 1353 ∧
    pyInt (400 * conversion_factor) = 2707 ∧
    conversion_factor = 1 / ((0.3844 : ℚ) ^ 2) := by
  refine ⟨rfl, rfl, ?_, ?_, ?_, ?_, rfl⟩ <;>
    norm_num [setDetParams, pyInt, conversion_factor]

/-- Claim C10: constructing `FlakeParams` with `iouType="keypoints"` always raises
(the branch calls the undefined method `setKpParams`), so keypoint evaluation
through `FlakeCOCOeval` can never run, even though the evaluator's per-task
assertion admits the task name `keypoints`. -/
theorem C10_keypoints_always_raises :
    taskIsKnown "keypoints" = true ∧
    FlakeParams.init "keypoints" = .error (.attributeError "setKpParams") ∧
    FlakeCOCOeval.init "keypoints" = .error (.attributeError "setKpParams") :=
  ⟨rfl, rfl, rfl⟩

theorem filter_gt_neg_one_nil {s : List ℚ} (h : ∀ x ∈ s, x = -1) :
    s.filter (fun x => -1 < x) = [] := by
  induction s with
  | nil => rfl
  | cons a t ih =>
    have ha : a = -1 := h a (List.mem_cons_self a t)
    have ht := ih (fun x hx => h x (List.mem_cons_of_mem a hx))
    simp [List.filter_cons, ha, ht]

/-- Claim C1: for an area bucket / IoU threshold combination for which all
accumulated precision/recall values are -1 (zero qualifying ground-truth or
prediction pairs), the reported metric is NaN, never 0 — both in the top-level
stats table (`_summarize` returns -1 and `_derive_coco_results` maps negative
stats to `float("nan")`) and in the per-class keys of `_derive_coco_results`. -/
theorem C1_empty_bucket_reports_nan (s : List ℚ) (h : ∀ x ∈ s, x = -1) :
    deriveStatEntry (summarizeMean s) = PyF.nan ∧
    deriveClassEntry s = PyF.nan ∧
    PyF.nan ≠ PyF.val 0 := by
  have hf := filter_gt_neg_one_nil h
  refine ⟨?_, ?_, fun hc => PyF.noConfusion hc⟩
  · norm_num [summarizeMean, hf, deriveStatEntry, PyF.round2]
  · norm_num [deriveClassEntry, hf, PyF.mulConst, PyF.round2]

/-- Witness for C1 on the all-invalid slice `[-1, -1]`. -/
theorem C1_empty_bucket_reports_nan_witness :
    (∀ x ∈ [(-1 : ℚ), -1], x = -1) ∧
    deriveStatEntry (summarizeMean [(-1 : ℚ), -1]) = PyF.nan ∧
    deriveClassEntry [(-1 : ℚ), -1] = PyF.nan ∧
    PyF.nan ≠ PyF.val 0 :=
  ⟨by norm_num, C1_empty_bucket_reports_nan _ (by norm_num)⟩

theorem getD_false_of_all_false {v : List Bool} (h : ∀ b ∈ v, b = false) (i : ℕ) :
    v[i]?.getD false = false := by
  cases hv : v[i]? with
  | none => rfl
  | some b =>
      have hb : b = false := by
        obtain ⟨hlt, he⟩ := List.getElem?_eq_some.mp hv
        exact h b (he ▸ List.getElem_mem hlt)
      simp [hb]

theorem whereTrue_nil_of_all_false {v : List Bool} (h : ∀ b ∈ v, b = false) :
    whereTrue v = [] := by
  rw [whereTrue, List.filter_eq_nil_iff]
  intro i _
  simp [List.getD_eq_getElem?_getD, getD_false_of_all_false h i]

/-- Claim C4: for every Flake whose mask contains no true pixel, the bounding-box
derivation of `to_dict(return_bbox=True)` fails (the model returns `none`, the
code raises `IndexError` when fancy-indexing the empty `np.where` result), and the
failure propagates to the caller. -/
theorem C4_all_zero_mask_bbox_fails (mask : List (List Bool))
    (h : ∀ r ∈ mask, ∀ b ∈ r, b = false) :
    deriveBBox mask = none := by
  have hrows : whereTrue (rowsAny mask) = [] := by
    apply whereTrue_nil_of_all_false
    intro b hb
    rw [rowsAny] at hb
    obtain ⟨r, hr, rfl⟩ := List.mem_map.mp hb
    rw [List.any_eq_false]
    intro x hx
    simpa using h r hr x hx
  simp [deriveBBox, hrows]

/-- Witness for C4 on the all-zero 2×2 mask. -/
theorem C4_all_zero_mask_bbox_fails_witness :
    (∀ r ∈ [[false, false], [false, false]], ∀ b ∈ r, b = false) ∧
    deriveBBox [[false, false], [false, false]] = none :=
  ⟨by decide, C4_all_zero_mask_bbox_fails _ (by decide)⟩

/-- Counterexample to claim C2 as stated: in distributed mode on a non-main rank,
`evaluate()` with an empty accumulated prediction list returns the empty mapping
but does not log the no-predictions warning (the early `return {}` on line 190 of
`evaluator.py` precedes the warning on line 195). -/
theorem C2_counterexample :
    FlakeCOCOEvaluator.evaluate (ρ := Unit) true false [] [] (fun _ => .ok []) =
      .ok { result := [], warnedNoPredictions := false } := by
  rfl

/-- Claim C2, amended: whenever the accumulated predictions are empty (on every
rank), `evaluate()` returns an empty mapping and does not raise; the warning is
logged in non-distributed mode and on the main rank, while a non-main rank in
distributed mode returns the empty mapping without logging it. -/
theorem C2_empty_predictions_empty_result {ρ : Type}
    (distributed isMainProcess : Bool)
    (gatheredPreds : List (List Prediction)) (ownPreds : List Prediction)
    (evalRest : List Prediction → Except PyError (List (String × ρ)))
    (hown : ownPreds = []) (hgathered : ∀ l ∈ gatheredPreds, l = []) :
    FlakeCOCOEvaluator.evaluate distributed isMainProcess gatheredPreds ownPreds
        evalRest =
      .ok { result := [], warnedNoPredictions := !distributed || isMainProcess } := by
  subst hown
  have hflat : gatheredPreds.flatten = [] := by
    rw [List.flatten_eq_nil_iff]
    exact hgathered
  cases distributed <;> cases isMainProcess <;>
    simp [FlakeCOCOEvaluator.evaluate, hflat]

/-- Witness for the amended C2 in non-distributed mode with no predictions. -/
theorem C2_empty_predictions_empty_result_witness :
    ([] : List Prediction) = [] ∧
    (∀ l ∈ ([] : List (List Prediction)), l = []) ∧
    FlakeCOCOEvaluator.evaluate (ρ := Unit) false false [] [] (fun _ => .ok []) =
      .ok { result := [], warnedNoPredictions := true } :=
  ⟨rfl, by simp,
    C2_empty_predictions_empty_result false false [] [] (fun _ => .ok []) rfl (by simp)⟩

theorem mem_whereTrue {v : List Bool} {i : ℕ} :
    i ∈ whereTrue v ↔ v[i]?.getD false = true := by
  rw [whereTrue, List.mem_filter, List.mem_range, List.getD_eq_getElem?_getD]
  constructor
  · rintro ⟨-, h⟩; exact h
  · intro h
    refine ⟨?_, h⟩
    cases hv : v[i]? with
    | none => rw [hv] at h; exact absurd h (by simp)
    | some b =>
        obtain ⟨hlt, -⟩ := List.getElem?_eq_some.mp hv
        exact hlt

theorem whereTrue_pairwise (v : List Bool) : (whereTrue v).Pairwise (· < ·) :=
  (List.pairwise_lt_range v.length).filter _

theorem mem_of_head_opt {α : Type} {l : List α} {a : α} (ha : l.head? = some a) :
    a ∈ l := by
  cases l with
  | nil => simp at ha
  | cons b t =>
      have hb : b = a := by simpa using ha
      exact hb ▸ List.mem_cons_self b t

theorem mem_of_getLast_opt {α : Type} {l : List α} {a : α} (ha : l.getLast? = some a) :
    a ∈ l := by
  obtain ⟨h, heq⟩ := List.mem_getLast?_eq_getLast ha
  exact heq ▸ List.getLast_mem h

theorem head?_le_of_pairwise {l : List ℕ} (hp : l.Pairwise (· < ·)) {a x : ℕ}
    (ha : l.head? = some a) (hx : x ∈ l) : a ≤ x := by
  cases l with
  | nil => simp at ha
  | cons b t =>
      have hab : b = a := by simpa using ha
      subst hab
      rcases List.mem_cons.mp hx with rfl | hxt
      · exact le_refl x
      · exact le_of_lt ((List.pairwise_cons.mp hp).1 x hxt)

theorem le_getLast?_of_pairwise {l : List ℕ} (hp : l.Pairwise (· < ·)) {a x : ℕ}
    (ha : l.getLast? = some a) (hx : x ∈ l) : x ≤ a := by
  induction l with
  | nil => cases hx
  | cons b t ih =>
      cases t with
      | nil =>
          have hab : b = a := by simpa using ha
          have hxb : x = b := by simpa using hx
          omega
      | cons c t2 =>
          have ha2 : (c :: t2).getLast? = some a := by
            rw [← ha, List.getLast?_cons_cons]
          obtain ⟨hb, hpt⟩ := List.pairwise_cons.mp hp
          rcases List.mem_cons.mp hx with rfl | hxt
          · exact le_of_lt (hb a (mem_of_getLast_opt ha2))
          · exact ih hpt ha2 hxt

theorem exists_head_getLast_of_mem {α : Type} {l : List α} {x : α} (hx : x ∈ l) :
    ∃ a b, l.head? = some a ∧ l.getLast? = some b := by
  cases l with
  | nil => cases hx
  | cons c t =>
      have h1 : (c :: t).getLast?.isSome := by
        rw [List.getLast?_isSome]; simp
      obtain ⟨b, hb⟩ := Option.isSome_iff_exists.mp h1
      exact ⟨c, b, rfl, hb⟩

theorem rowsAny_getD (mask : List (List Bool)) (i : ℕ) :
    (rowsAny mask)[i]?.getD false = occupiedRow mask i := by
  rw [rowsAny, occupiedRow, List.getElem?_map, List.getD_eq_getElem?_getD]
  cases mask[i]? <;> simp

theorem colsAny_getD (mask : List (List Bool)) (w : ℕ)
    (hrect : ∀ r ∈ mask, r.length = w) (j : ℕ) :
    (colsAny mask)[j]?.getD false = occupiedCol mask j := by
  rw [colsAny, occupiedCol]
  rcases mask with _ | ⟨r0, rest⟩
  · simp
  · have hw0 : r0.length = w := hrect r0 (by simp)
    by_cases hj : j < r0.length
    · rw [List.getElem?_map, List.getElem?_range (by simpa using hj)]
      rfl
    · rw [List.getElem?_eq_none (by simpa using hj)]
      rw [Option.getD_none]
      symm
      rw [List.any_eq_false]
      intro r hr
      have hrw : r.length = w := hrect r hr
      have hjw : r.length ≤ j := by omega
      simp [List.getD_eq_getElem?_getD, List.getElem?_eq_none hjw]

theorem occupied_of_pixel {mask : List (List Bool)} {i j : ℕ}
    (hpix : (mask.getD i []).getD j false = true) :
    occupiedRow mask i = true ∧ occupiedCol mask j = true := by
  have hrow : mask[i]? ≠ none := by
    intro hnone
    rw [List.getD_eq_getElem?_getD, List.getD_eq_getElem?_getD, hnone] at hpix
    simp at hpix
  obtain ⟨r, hr⟩ := Option.ne_none_iff_exists'.mp hrow
  have hrd : mask.getD i [] = r := by
    rw [List.getD_eq_getElem?_getD, hr]; rfl
  rw [hrd] at hpix
  have hrmem : r ∈ mask := by
    obtain ⟨hlt, he⟩ := List.getElem?_eq_some.mp hr
    exact he ▸ List.getElem_mem hlt
  have hbj : r[j]? = some true := by
    rw [List.getD_eq_getElem?_getD] at hpix
    cases hv : r[j]? with
    | none => rw [hv] at hpix; simp at hpix
    | some b =>
        rw [hv] at hpix
        have hbt : b = true := by simpa using hpix
        rw [hbt]
  have htmem : true ∈ r := by
    obtain ⟨hlt, he⟩ := List.getElem?_eq_some.mp hbj
    exact he ▸ List.getElem_mem hlt
  constructor
  · rw [occupiedRow, hrd, List.any_eq_true]
    exact ⟨true, htmem, rfl⟩
  · rw [occupiedCol, List.any_eq_true]
    refine ⟨r, hrmem, ?_⟩
    rw [List.getD_eq_getElem?_getD, hbj]
    rfl

/-- Claim C5: for every rectangular mask with at least one true pixel, the bbox
`[cmin, rmin, cmax - cmin, rmax - rmin]` produced by `to_dict(return_bbox=True)`
exactly bounds the minimal enclosing axis-aligned rectangle of the true entries:
`cmin`/`rmin` are the first occupied column/row, and the width/height spans reach
the last occupied column/row `cmax`/`rmax`. -/
theorem C5_bbox_minimal_rectangle (mask : List (List Bool)) (w : ℕ)
    (hrect : ∀ r ∈ mask, r.length = w) (i j : ℕ)
    (hpix : (mask.getD i []).getD j false = true) :
    ∃ rmin rmax cmin cmax : ℕ,
      deriveBBox mask =
        some [(cmin : ℤ), (rmin : ℤ), (cmax : ℤ) - (cmin : ℤ), (rmax : ℤ) - (rmin : ℤ)] ∧
      occupiedCol mask cmin = true ∧ occupiedRow mask rmin = true ∧
      occupiedCol mask cmax = true ∧ occupiedRow mask rmax = true ∧
      (∀ c, occupiedCol mask c = true → cmin ≤ c ∧ c ≤ cmax) ∧
      (∀ r, occupiedRow mask r = true → rmin ≤ r ∧ r ≤ rmax) := by
  obtain ⟨hrowi, hcolj⟩ := occupied_of_pixel hpix
  have hmemR : ∀ k, k ∈ whereTrue (rowsAny mask) ↔ occupiedRow mask k = true := by
    intro k; rw [mem_whereTrue, rowsAny_getD]
  have hmemC : ∀ k, k ∈ whereTrue (colsAny mask) ↔ occupiedCol mask k = true := by
    intro k; rw [mem_whereTrue, colsAny_getD mask w hrect]
  obtain ⟨rmin, rmax, hRh, hRl⟩ := exists_head_getLast_of_mem ((hmemR i).mpr hrowi)
  obtain ⟨cmin, cmax, hCh, hCl⟩ := exists_head_getLast_of_mem ((hmemC j).mpr hcolj)
  refine ⟨rmin, rmax, cmin, cmax, ?_, ?_, ?_, ?_, ?_, ?_, ?_⟩
  · rw [deriveBBox, hRh, hRl, hCh, hCl]
  · exact (hmemC cmin).mp (mem_of_head_opt hCh)
  · exact (hmemR rmin).mp (mem_of_head_opt hRh)
  · exact (hmemC cmax).mp (mem_of_getLast_opt hCl)
  · exact (hmemR rmax).mp (mem_of_getLast_opt hRl)
  · intro c hc
    have hcm : c ∈ whereTrue (colsAny mask) := (hmemC c).mpr hc
    exact ⟨head?_le_of_pairwise (whereTrue_pairwise _) hCh hcm,
           le_getLast?_of_pairwise (whereTrue_pairwise _) hCl hcm⟩
  · intro r hr
    have hrm : r ∈ whereTrue (rowsAny mask) := (hmemR r).mpr hr
    exact ⟨head?_le_of_pairwise (whereTrue_pairwise _) hRh hrm,
           le_getLast?_of_pairwise (whereTrue_pairwise _) hRl hrm⟩

/-- Witness for C5 on the 2×2 mask with true pixels at (0,1) and (1,0). -/
theorem C5_bbox_minimal_rectangle_witness :
    (∀ r ∈ [[false, true], [true, false]], r.length = 2) ∧
    (([[false, true], [true, false]].getD 0 []).getD 1 false = true) ∧
    (∃ rmin rmax cmin cmax : ℕ,
      deriveBBox [[false, true], [true, false]] =
        some [(cmin : ℤ), (rmin : ℤ), (cmax : ℤ) - (cmin : ℤ), (rmax : ℤ) - (rmin : ℤ)] ∧
      occupiedCol [[false, true], [true, false]] cmin = true ∧
      occupiedRow [[false, true], [true, false]] rmin = true ∧
      occupiedCol [[false, true], [true, false]] cmax = true ∧
      occupiedRow [[false, true], [true, false]] rmax = true ∧
      (∀ c, occupiedCol [[false, true], [true, false]] c = true → cmin ≤ c ∧ c ≤ cmax) ∧
      (∀ r, occupiedRow [[false, true], [true, false]] r = true → rmin ≤ r ∧ r ≤ rmax)) :=
  ⟨by decide, by decide,
    C5_bbox_minimal_rectangle [[false, true], [true, false]] 2 (by decide) 0 1 (by decide)⟩

/-- Claim C7: when the dataset's COCO file has no `annotations` key,
`_eval_predictions` writes the requested output artifacts, logs the informational
message, and returns without invoking the COCO evaluation engine (provided the
category-remapping assertion upstream of the check passes). -/
theorem C7_no_annotations_skips_metrics {ρ : Type}
    (idMapping : Option (ℕ × (ℕ → ℕ))) (hasOutputDir : Bool)
    (datasetKeys : List String) (tasks : List String)
    (cocoResults : List CocoResult) (deriveTask : String → List CocoResult → ρ)
    (hnoann : doEvaluationFlag datasetKeys = false)
    (hassert : ∀ nc remap, idMapping = some (nc, remap) →
      cocoResults.all (fun r => r.categoryId < nc) = true) :
    FlakeCOCOEvaluator.evalPredictions idMapping hasOutputDir
        (doEvaluationFlag datasetKeys) tasks cocoResults deriveTask =
      .ok { wroteResultsJson := hasOutputDir, loggedNoAnnotations := true,
            invokedCocoEval := false, results := [] } := by
  rw [hnoann]
  cases idMapping with
  | none => rfl
  | some p =>
      obtain ⟨nc, remap⟩ := p
      have hall := hassert nc remap rfl
      simp [FlakeCOCOEvaluator.evalPredictions, hall]
      rfl

/-- Witness for C7: no id remapping, an output directory, one `segm` task, a
dataset whose keys lack `annotations`. -/
theorem C7_no_annotations_skips_metrics_witness :
    doEvaluationFlag ["images", "categories"] = false ∧
    FlakeCOCOEvaluator.evalPredictions (ρ := ℕ) none true
        (doEvaluationFlag ["images", "categories"]) ["segm"] [] (fun _ _ => 0) =
      .ok { wroteResultsJson := true, loggedNoAnnotations := true,
            invokedCocoEval := false, results := [] } :=
  ⟨rfl, C7_no_annotations_skips_metrics none true ["images", "categories"] ["segm"]
    [] (fun _ _ => 0) rfl (fun _ _ h => nomatch h)⟩

theorem runLoopFrom_aborts (total : ℕ) (nw : ℤ) (dataT computeT evalT : ℕ → ℚ)
    (maxT : Option ℚ) :
    ∀ (fuel idx j : ℕ), idx ≤ j → j < idx + fuel →
      etaCheckFires total nw maxT j
        (stepState dataT computeT evalT nw j (stateAt dataT computeT evalT nw j)) = true →
      ∃ k, k ≤ j + 1 ∧
        runLoopFrom total nw dataT computeT evalT maxT fuel idx
          (stateAt dataT computeT evalT nw idx) = .aborted k := by
  intro fuel
  induction fuel with
  | zero => intro idx j hij hlt _; omega
  | succ n ih =>
      intro idx j hij hlt hfire
      by_cases hidx : etaCheckFires total nw maxT idx
          (stepState dataT computeT evalT nw idx (stateAt dataT computeT evalT nw idx)) = true
      · refine ⟨idx + 1, by omega, ?_⟩
        rw [runLoopFrom]
        simp only [hidx, if_true]
      · have hne : idx ≠ j := fun he => hidx (he ▸ hfire)
        obtain ⟨k, hk, hrun⟩ := ih (idx + 1) j (by omega) (by omega) hfire
        refine ⟨k, hk, ?_⟩
        rw [runLoopFrom, if_neg hidx]
        exact hrun

/-- Claim C3: whenever the caller supplies a non-negative time ceiling (in
minutes) and, at some checked iteration `j`, the projected completion time
exceeds that ceiling (`etaCheckFires`, i.e. the gate of the check holds and the
whole-second ETA strictly exceeds `60 * max_time_minutes`), the timing loop of
`evaluate_on_dataset` aborts: it returns `None` instead of metrics, after having
fully processed `k ≤ j + 1 < total` of the `total` batches. -/
theorem C3_eta_exceeds_ceiling_aborts (total : ℕ) (dataT computeT evalT : ℕ → ℚ)
    (m : ℚ) (j : ℕ) (hm : 0 ≤ m) (hj : j < total)
    (hfire : etaCheckFires total (numWarmup total) (some m) j
      (stepState dataT computeT evalT (numWarmup total) j
        (stateAt dataT computeT evalT (numWarmup total) j)) = true) :
    ∃ k, k ≤ j + 1 ∧ k < total ∧
      evaluateOnDatasetLoop total dataT computeT evalT (some m) = .aborted k := by
  have hcond : 60 * m < ((etaSeconds total (numWarmup total) j
      (stepState dataT computeT evalT (numWarmup total) j
        (stateAt dataT computeT evalT (numWarmup total) j)) : ℤ) : ℚ) := by
    rw [etaCheckFires, Bool.and_eq_true] at hfire
    obtain ⟨-, h2⟩ := hfire
    simpa using h2
  have heta1 : (1 : ℤ) ≤ etaSeconds total (numWarmup total) j
      (stepState dataT computeT evalT (numWarmup total) j
        (stateAt dataT computeT evalT (numWarmup total) j)) := by
    have h60 : (0 : ℚ) ≤ 60 * m := by linarith
    have h0 : (0 : ℤ) < etaSeconds total (numWarmup total) j
        (stepState dataT computeT evalT (numWarmup total) j
          (stateAt dataT computeT evalT (numWarmup total) j)) := by
      exact_mod_cast lt_of_le_of_lt h60 hcond
    omega
  have hx := floor_lt_of_le_pyInt (x :=
    ((stepState dataT computeT evalT (numWarmup total) j
        (stateAt dataT computeT evalT (numWarmup total) j)).now -
      (stepState dataT computeT evalT (numWarmup total) j
        (stateAt dataT computeT evalT (numWarmup total) j)).startTime) /
      (itersAfterStart (numWarmup total) j : ℚ) * ((total : ℚ) - (j : ℚ) - 1)) heta1
  have hrem0 : (0 : ℚ) ≤ (total : ℚ) - (j : ℚ) - 1 := by
    have hjq : (j : ℚ) + 1 ≤ (total : ℚ) := by exact_mod_cast hj
    linarith
  have hrem : (0 : ℚ) < (total : ℚ) - (j : ℚ) - 1 := by
    by_contra hc
    push_neg at hc
    have h0 : (total : ℚ) - (j : ℚ) - 1 = 0 := le_antisymm hc hrem0
    rw [h0, mul_zero] at hx
    exact lt_irrefl _ hx
  have hj1 : j + 1 < total := by
    have : ((j : ℚ) + 1) < (total : ℚ) := by linarith
    exact_mod_cast this
  obtain ⟨k, hk, hrun⟩ := runLoopFrom_aborts total (numWarmup total) dataT computeT
    evalT (some m) total 0 j (Nat.zero_le j) (by omega) hfire
  exact ⟨k, hk, by omega, hrun⟩

/-- Witness for C3: a loader of 2 batches with 10 s of compute per batch and a
ceiling of 0 minutes; the check fires at iteration 0 and the loop aborts after
one batch. -/
theorem C3_eta_exceeds_ceiling_aborts_witness :
    (0 : ℚ) ≤ 0 ∧ 0 < 2 ∧
    etaCheckFires 2 (numWarmup 2) (some 0) 0
      (stepState (fun _ => 0) (fun _ => 10) (fun _ => 0) (numWarmup 2) 0
        (stateAt (fun _ => 0) (fun _ => 10) (fun _ => 0) (numWarmup 2) 0)) = true ∧
    (∃ k, k ≤ 0 + 1 ∧ k < 2 ∧
      evaluateOnDatasetLoop 2 (fun _ => 0) (fun _ => 10) (fun _ => 0) (some 0) =
        .aborted k) := by
  have hfire : etaCheckFires 2 (numWarmup 2) (some 0) 0
      (stepState (fun _ => 0) (fun _ => 10) (fun _ => 0) (numWarmup 2) 0
        (stateAt (fun _ => 0) (fun _ => 10) (fun _ => 0) (numWarmup 2) 0)) = true := by
    norm_num [etaCheckFires, etaSeconds, itersAfterStart, stepState, stateAt,
      initState, numWarmup, pyInt]
  exact ⟨le_refl 0, by norm_num, hfire,
    C3_eta_exceeds_ceiling_aborts 2 (fun _ => 0) (fun _ => 10) (fun _ => 0) 0 0
      (le_refl 0) (by norm_num) hfire⟩

end MaskTerial
